import Mathlib

/-!
# rundeck-failed-jobs-mandrill

A shallow embedding of `rundeck-failed-jobs.go` and the properties of its
digest formatter, request builder and dispatcher.

The program is a single `main`.  Everything it obtains from outside (the
executable's directory, the flag values, the configuration file, the HTTP
exchange, the XML decoder and the mail provider) is collected in a `World`
value; `main` is then a total function from a `World` to an `Outcome` that
records every externally visible effect of the run and its exit code.
-/

namespace RundeckFailedJobs

/-! ## Data model (lines 17-64 of the source) -/

structure Recipient where
  Email : String
  Name : String
  SendType : String
deriving DecidableEq, Repr

structure Configuration where
  RundeckServerUrl : String
  RundeckApiVersion : String
  RundeckAuthToken : String
  MandrillKey : String
  MandrillFromEmail : String
  MandrillFromName : String
  MandrillRecipients : List Recipient
deriving DecidableEq, Repr

structure Job where
  Name : String
  Group : String
  Project : String
  Description : String
deriving DecidableEq, Repr

structure Node where
  Name : String
deriving DecidableEq, Repr

structure FailedNodes where
  Nodes : List Node
deriving DecidableEq, Repr

structure Execution where
  Href : String
  User : String
  Started : String
  Ended : String
  Jobs : List Job
  FailedNodes : FailedNodes
deriving DecidableEq, Repr

structure QueryExecutions where
  Executions : List Execution
deriving DecidableEq, Repr

/-! ## Library values the program handles -/

/-- One entry of a mandrill message's `To` list: the three arguments of one
`AddRecipient` call. -/
structure To where
  Email : String
  Name : String
  /-- The field `Type` of the library's `To`. -/
  SendType : String
deriving DecidableEq, Repr

/-- The fields of `mandrill.Message` that the program sets. -/
structure Message where
  To : List To := []
  FromEmail : String := ""
  FromName : String := ""
  Subject : String := ""
  Text : String := ""
deriving DecidableEq, Repr

/-- The call `message.AddRecipient(email, name, sendType)`: it appends one
entry to the message's `To` list. -/
def Message.AddRecipient (m : Message) (email name sendType : String) : Message :=
  { m with To := m.To ++ [⟨email, name, sendType⟩] }

/-- An `http.Request` as the program builds it: method, the URL string handed
to `http.NewRequest`, and the header fields set on it. -/
structure Request where
  Method : String
  URL : String
  Header : List (String × String) := []
deriving DecidableEq, Repr

/-- The call `req.Header.Set(key, value)`: the value replaces whatever the key
held. -/
def Request.HeaderSet (req : Request) (key value : String) : Request :=
  { req with Header := req.Header.filter (fun kv => kv.1 != key) ++ [(key, value)] }

/-- An `http.Response`: the status code and what `ioutil.ReadAll(res.Body)`
yields (the bytes of the body, or a read error). -/
structure Response where
  StatusCode : Nat
  Body : Except String String

/-! ## Formatting primitives -/

/-- Go's `len` on a string: its length in bytes. -/
def len (s : String) : Nat := s.utf8ByteSize

/-- The verb `%v` applied to an `int`: its decimal digits. -/
def fmtInt (n : Nat) : String := toString n

/-- A `bytes.Buffer` that is only written to and read back with `String()`. -/
abbrev Buffer := String

/-- The call `buffer.WriteString(s)`. -/
def Buffer.WriteString (buffer : Buffer) (s : String) : Buffer := buffer ++ s

/-! ## The report formatter (lines 121-151) -/

/-- Lines 135-137: one line per job of the execution. -/
def writeJobs (buffer : Buffer) (jobs : List Job) : Buffer :=
  jobs.foldl (fun b job => Buffer.WriteString b ("\t" ++ job.Name ++ "\n")) buffer

/-- Lines 143-148: the loop over the failed nodes, `i` being the index of the
head of the remaining list. -/
def writeNodes (i : Nat) (buffer : Buffer) : List Node → Buffer
  | [] => buffer
  | node :: rest =>
    let buffer := if i > 0 then Buffer.WriteString buffer " / " else buffer
    writeNodes (i + 1) (Buffer.WriteString buffer node.Name) rest

/-- Lines 133-151: the body of the loop over the executions. -/
def writeExecution (buffer : Buffer) (execution : Execution) : Buffer :=
  let buffer := writeJobs buffer execution.Jobs
  let buffer := Buffer.WriteString buffer ("\t\t" ++ execution.Href ++ "\n")
  let buffer := Buffer.WriteString buffer
    ("\t\tStarted: " ++ execution.Started ++ " | User:" ++ execution.User ++ "\n")
  let buffer := Buffer.WriteString buffer "\t\tNodes: "
  let buffer := writeNodes 0 buffer execution.FailedNodes.Nodes
  Buffer.WriteString buffer "\n\n"

/-- Lines 123-129: the header line written first into the buffer. -/
def writeHeader (buffer : Buffer) (project group : String) (failed_executions : Nat) : Buffer :=
  let buffer := Buffer.WriteString buffer
    (fmtInt failed_executions ++ " Failed Executions from project [" ++ project ++ "]")
  let buffer := if len group != 0 then Buffer.WriteString buffer (" group [" ++ group ++ "]")
    else buffer
  Buffer.WriteString buffer ".\n\n"

/-- Lines 121-151 and 170: the text of the message, `buffer.String()`. -/
def formatBody (project group : String) (executions : List Execution) : String :=
  let buffer : Buffer := ""
  let buffer := writeHeader buffer project group executions.length
  let buffer := Buffer.WriteString buffer "Executions:\n"
  executions.foldl writeExecution buffer

/-! ## The dispatcher's message (lines 155-170) -/

/-- Lines 164-168: the subject line. -/
def buildSubject (project group : String) (failed_executions : Nat) : String :=
  if len group != 0 then
    "[RunDeck] [" ++ project ++ "] [" ++ group ++ "] " ++ fmtInt failed_executions ++ " failures!"
  else
    "[RunDeck] [" ++ project ++ "] " ++ fmtInt failed_executions ++ " failures!"

/-- Lines 155-170: the message handed to the mail provider. -/
def buildMessage (configuration : Configuration) (project group : String)
    (executions : List Execution) : Message :=
  let message : Message := {}
  let message := configuration.MandrillRecipients.foldl
    (fun msg recipient => msg.AddRecipient recipient.Email recipient.Name recipient.SendType)
    message
  let message := { message with FromEmail := configuration.MandrillFromEmail }
  let message := { message with FromName := configuration.MandrillFromName }
  let message := { message with Subject := buildSubject project group executions.length }
  { message with Text := formatBody project group executions }

/-! ## The request (lines 98-100) -/

/-- Line 99: the URL string handed to `http.NewRequest`. -/
def requestURL (configuration : Configuration) (project group recentFilter : String) : String :=
  configuration.RundeckServerUrl ++ "/api/" ++ configuration.RundeckApiVersion
    ++ "/executions?project=" ++ project ++ "&groupPath=" ++ group
    ++ "&statusFilter=failed&recentFilter=" ++ recentFilter

/-- Lines 99-100: the request once its header is set. -/
def buildRequest (configuration : Configuration) (project group recentFilter : String) : Request :=
  let req : Request :=
    { Method := "GET", URL := requestURL configuration project group recentFilter }
  req.HeaderSet "X-Rundeck-Auth-Token" configuration.RundeckAuthToken

/-! ## The run -/

/-- Everything a run obtains from outside the program. -/
structure World where
  /-- What `filepath.Abs(filepath.Dir(os.Args[0]))` returns. -/
  absDir : Except String String
  /-- Value of the flag `-project` after `flag.Parse()`. -/
  project : String
  /-- Value of the flag `-group`. -/
  group : String
  /-- Value of the flag `-recentfilter`. -/
  recentfilter : String
  /-- What `os.Open(path)` returns: the file (its contents) or an error. -/
  osOpen : String → Except String String
  /-- What `decoder.Decode(&configuration)` leaves in `configuration`, and the
  error it returns. -/
  jsonDecode : String → Configuration × Option String
  /-- The error `http.NewRequest(method, url, nil)` returns, if any. -/
  newRequestErr : String → String → Option String
  /-- What `client.Do(req)` returns. -/
  clientDo : Request → Except String Response
  /-- What `xml.Unmarshal(body, &query)` leaves in `query`, and the error it
  returns. -/
  xmlUnmarshal : String → QueryExecutions × Option String
  /-- The error `mail_client.MessagesSend(message)` returns, if any, for a
  client made with the given key. -/
  messagesSend : String → Message → Option String

/-- The externally visible effects of a run. -/
structure Outcome where
  /-- Requests handed to `client.Do`, in order. -/
  requests : List Request := []
  /-- Response bodies handed to `xml.Unmarshal`, in order. -/
  parsed : List String := []
  /-- Calls of `MessagesSend`: the client's key and the message, in order. -/
  sent : List (String × Message) := []
  /-- Lines printed with `fmt.Println`, in order. -/
  stdout : List String := []
  /-- Diagnostics printed by `log.Fatal` or by the runtime on a panic. -/
  log : List String := []
  /-- The exit code of the process. -/
  exit : Nat := 0
deriving DecidableEq, Repr

/-- The call `log.Fatal(v)`: print the diagnostic, then `os.Exit(1)`. -/
def logFatal (o : Outcome) (v : String) : Outcome :=
  { o with log := o.log ++ [v], exit := 1 }

/-- A run-time panic: the runtime prints the panic and exits with code 2. -/
def runtimePanic (o : Outcome) (v : String) : Outcome :=
  { o with log := o.log ++ [v], exit := 2 }

/-- Lines 118-184: what follows `xml.Unmarshal`. -/
def report (w : World) (configuration : Configuration) (o : Outcome)
    (query : QueryExecutions) : Outcome :=
  let failed_executions := query.Executions.length
  if failed_executions > 0 then
    let message := buildMessage configuration w.project w.group query.Executions
    let o := { o with sent := o.sent ++ [(configuration.MandrillKey, message)] }
    match w.messagesSend configuration.MandrillKey message with
    | some err => logFatal o err
    | none =>
      { o with stdout := o.stdout ++ [fmtInt failed_executions ++ " failed jobs found."],
               exit := 0 }
  else
    { o with stdout := o.stdout ++
               ["No failed jobs found in the period [" ++ w.recentfilter ++ "]."],
             exit := 0 }

/-- The function `main` (lines 66-186). -/
def main (w : World) : Outcome :=
  let o : Outcome := {}
  match w.absDir with
  | .error err => logFatal o err
  | .ok dir =>
    if len w.project == 0 then logFatal o "Missing required [project] param!"
    else
      match w.osOpen (dir ++ "/conf.json") with
      | .error err => logFatal o err
      | .ok file =>
        -- line 95: the error of `Decode` is overwritten at line 99 unread
        let configuration := (w.jsonDecode file).1
        let url := requestURL configuration w.project w.group w.recentfilter
        match w.newRequestErr "GET" url with
        | some _ =>
          -- `req` is nil: line 100 dereferences it
          runtimePanic o "invalid memory address or nil pointer dereference"
        | none =>
          let req := buildRequest configuration w.project w.group w.recentfilter
          let o := { o with requests := o.requests ++ [req] }
          match w.clientDo req with
          | .error err => logFatal o err
          | .ok res =>
            match res.Body with
            | .error err => logFatal o err
            | .ok response_body =>
              -- line 116: the error of `xml.Unmarshal` is discarded
              let o := { o with parsed := o.parsed ++ [response_body] }
              let query := (w.xmlUnmarshal response_body).1
              report w configuration o query

/-! ## The digest as the specification words it -/

/-- The block of one execution in the specification's words: one line per job,
the locator line, the Started/User line, and the Nodes line with the failed
node names joined with " / ", closed by a blank line. -/
def blockSpec (e : Execution) : String :=
  String.join (e.Jobs.map (fun job => "\t" ++ job.Name ++ "\n"))
    ++ ("\t\t" ++ e.Href ++ "\n")
    ++ ("\t\tStarted: " ++ e.Started ++ " | User:" ++ e.User ++ "\n")
    ++ ("\t\tNodes: " ++ String.intercalate " / " (e.FailedNodes.Nodes.map Node.Name) ++ "\n\n")

/-- The header line in the specification's words, the group segment being
present exactly when the group is not empty. -/
def headerSpec (project group : String) (n : Nat) : String :=
  Nat.repr n ++ " Failed Executions from project [" ++ project ++ "]"
    ++ (if group = "" then "" else " group [" ++ group ++ "]") ++ ".\n\n"

/-- The whole digest in the specification's words. -/
def digestSpec (project group : String) (executions : List Execution) : String :=
  headerSpec project group executions.length ++ "Executions:\n"
    ++ String.join (executions.map blockSpec)

/-- The subject in the specification's words. -/
def subjectSpec (project group : String) (n : Nat) : String :=
  if group = "" then "[RunDeck] [" ++ project ++ "] " ++ Nat.repr n ++ " failures!"
  else "[RunDeck] [" ++ project ++ "] [" ++ group ++ "] " ++ Nat.repr n ++ " failures!"

/-! ## Reaching the report stage -/

/-- The run of `main` in `w` gets past line 116: the directory is resolved, the
project flag is not empty, the configuration file opens and line 95 leaves
`configuration`, the request is accepted and answered with `res`, whose body
reads as `response_body`, and line 116 leaves `query`. -/
def ReachesReport (w : World) (configuration : Configuration) (res : Response)
    (response_body : String) (query : QueryExecutions) : Prop :=
  ∃ dir file,
    w.absDir = .ok dir ∧ w.project ≠ "" ∧
    w.osOpen (dir ++ "/conf.json") = .ok file ∧
    (w.jsonDecode file).1 = configuration ∧
    w.newRequestErr "GET" (requestURL configuration w.project w.group w.recentfilter) = none ∧
    w.clientDo (buildRequest configuration w.project w.group w.recentfilter) = .ok res ∧
    res.Body = .ok response_body ∧
    (w.xmlUnmarshal response_body).1 = query

/-! ## Sample inputs -/

def sampleConfiguration : Configuration :=
  { RundeckServerUrl := "http://rundeck.example:4440"
    RundeckApiVersion := "12"
    RundeckAuthToken := "s3cr3t"
    MandrillKey := "mandrill-key"
    MandrillFromEmail := "rundeck@example.org"
    MandrillFromName := "RunDeck"
    MandrillRecipients := [⟨"ann@example.org", "Ann", "to"⟩, ⟨"bob@example.org", "Bob", "cc"⟩] }

def sampleExecution (href : String) : Execution :=
  { Href := href
    User := "admin"
    Started := "2015-05-13T16:58:59Z"
    Ended := "2015-05-13T16:59:02Z"
    Jobs := [⟨"deploy", "teamA", "web", ""⟩]
    FailedNodes := ⟨[⟨"n1"⟩, ⟨"n2"⟩]⟩ }

def twoExecutions : QueryExecutions :=
  ⟨[sampleExecution "http://rundeck.example:4440/execution/follow/1",
    sampleExecution "http://rundeck.example:4440/execution/follow/2"]⟩

/-- A world in which every call before the report stage succeeds: the server
answers with `status` and `body`, the decoder leaves `decoded`, and the mail
provider returns `sendErr`. -/
def sampleWorld (project group : String) (status : Nat) (body : String)
    (decoded : QueryExecutions × Option String) (sendErr : Option String) : World :=
  { absDir := .ok "/opt/rundeck-failed-jobs"
    project := project
    group := group
    recentfilter := "1h"
    osOpen := fun _ => .ok "conf.json"
    jsonDecode := fun _ => (sampleConfiguration, none)
    newRequestErr := fun _ _ => none
    clientDo := fun _ => .ok ⟨status, .ok body⟩
    xmlUnmarshal := fun _ => decoded
    messagesSend := fun _ _ => sendErr }

/-! ## Variations of a world -/

/-- The world `w` with another auth token in the decoded configuration. -/
def World.withToken (w : World) (token : String) : World :=
  { w with
    jsonDecode := fun file =>
      ({ (w.jsonDecode file).1 with RundeckAuthToken := token }, (w.jsonDecode file).2) }

/-- The world `w` in which the server answers with another status code. -/
def World.withStatus (w : World) (status : Nat) : World :=
  { w with
    clientDo := fun req =>
      match w.clientDo req with
      | .error err => .error err
      | .ok res => .ok { res with StatusCode := status } }

/-- The world `w` in which the XML decoder leaves the same value and reports
`err`. -/
def World.withDecodeError (w : World) (err : Option String) : World :=
  { w with xmlUnmarshal := fun body => ((w.xmlUnmarshal body).1, err) }

/-- An answer with status 500 and a valid document of two executions. -/
def serverErrorWorld : World :=
  sampleWorld "web" "" 500 "<executions count='2'>...</executions>" (twoExecutions, none) none

/-- An answer with status 403 and the server's error document: the decoder
rejects the root element and leaves `query` empty. -/
def forbiddenWorld : World :=
  sampleWorld "web" "" 403
    "<result error='true' apiversion='12'><error><message>Unauthorized</message></error></result>"
    (⟨[]⟩, some "expected element type <executions> but have <result>") none

/-- An answer with status 200 and a truncated document: the decoder reports a
syntax error and leaves `query` empty. -/
def truncatedWorld : World :=
  sampleWorld "web" "" 200 "<executions count='1'><execution"
    (⟨[]⟩, some "XML syntax error on line 1: unexpected EOF") none

/-- An answer with status 200 and a document broken after its first execution:
the decoder reports a syntax error and leaves the execution decoded so far. -/
def brokenTailWorld : World :=
  sampleWorld "web" "" 200 "<executions count='2'><execution href='h'></execution><execution"
    (⟨[⟨"h", "", "", "", [], ⟨[]⟩⟩]⟩, some "XML syntax error on line 1: unexpected EOF") none

/-- An answer with status 200 and a valid document without executions. -/
def emptyWorld : World :=
  sampleWorld "web" "" 200 "<executions count='0'/>" (⟨[]⟩, none) none

/-- A world in which the request cannot be sent. -/
def unreachableWorld : World :=
  { sampleWorld "web" "" 0 "" (⟨[]⟩, none) none with
    clientDo := fun _ => .error "dial tcp 192.0.2.1:4440: connect: connection refused" }

/-- A world in which the server answers 502 and the connection breaks while
the body is read. -/
def badGatewayWorld : World :=
  { sampleWorld "web" "" 502 "" (⟨[]⟩, none) none with
    clientDo := fun _ => .ok ⟨502, .error "unexpected EOF"⟩ }

/-- A world in which the server refuses the request of this run and would
answer any other request with status 200 and a valid empty document. -/
def refusingWorld : World :=
  { sampleWorld "web" "" 200 "<executions count='0'/>" (⟨[]⟩, none) none with
    clientDo := fun req =>
      if req = buildRequest sampleConfiguration "web" "" "1h" then
        .error "dial tcp 192.0.2.1:4440: connect: connection refused"
      else .ok ⟨200, .ok "<executions count='0'/>"⟩ }


/-! ## Counting the occurrences of a text -/

/-- Number of positions of `s` at which `pat` starts, overlapping occurrences
included. -/
def countOcc (pat : List Char) : List Char → Nat
  | [] => if pat.isEmpty then 1 else 0
  | c :: cs => (if pat.isPrefixOf (c :: cs) then 1 else 0) + countOcc pat cs

/-- Number of occurrences of the text `pat` in the text `s`. -/
def occurrences (pat s : String) : Nat := countOcc pat.data s.data

/-- The first line of a text: its characters before the first line feed. -/
def firstLine (s : String) : String := ⟨s.data.takeWhile (fun c => c != '\n')⟩

/-- No position of the list holds `a` followed by `b`, and `a` is not the last
element of the list. -/
def avoids (a b : Char) : List Char → Bool
  | [] => true
  | [c] => c != a
  | c :: d :: l => (c != a || d != b) && avoids a b (d :: l)

/-! ## Auxiliary lemmas on strings and on the formatter's loops -/

theorem utf8ByteSize_go_eq_zero (cs : List Char) (h : String.utf8ByteSize.go cs = 0) : cs = [] := by
  cases cs with
  | nil => rfl
  | cons c cs =>
    have hc := Char.utf8Size_pos c
    simp [String.utf8ByteSize.go] at h
    omega

theorem len_eq_zero_iff (s : String) : len s = 0 ↔ s = "" := by
  constructor
  · intro h
    cases s with
    | mk cs =>
      have : cs = [] := utf8ByteSize_go_eq_zero cs h
      subst this
      rfl
  · rintro rfl
    rfl

theorem len_bne_zero (s : String) : (len s != 0) = !decide (s = "") := by
  by_cases h : s = ""
  · subst h; rfl
  · have : len s ≠ 0 := fun h0 => h ((len_eq_zero_iff s).1 h0)
    simp [h, this]

theorem foldl_append (l : List String) (acc : String) :
    l.foldl (fun r s => r ++ s) acc = acc ++ String.join l := by
  induction l generalizing acc with
  | nil => simp [String.join]
  | cons a l ih =>
    simp only [List.foldl_cons, String.join]
    rw [ih, ih ("" ++ a)]
    simp [String.append_assoc]

theorem join_cons (a : String) (l : List String) : String.join (a :: l) = a ++ String.join l := by
  simp only [String.join, List.foldl_cons]
  rw [foldl_append, foldl_append]
  simp

theorem writeJobs_eq (buffer : Buffer) (jobs : List Job) :
    writeJobs buffer jobs = buffer ++ String.join (jobs.map (fun job => "\t" ++ job.Name ++ "\n")) := by
  induction jobs generalizing buffer with
  | nil => simp [writeJobs, String.join]
  | cons j js ih =>
    have := ih (Buffer.WriteString buffer ("\t" ++ j.Name ++ "\n"))
    simp only [writeJobs, List.foldl_cons, List.map_cons, join_cons] at this ⊢
    rw [this]
    simp [Buffer.WriteString, String.append_assoc]

theorem intercalate_go_append (buffer acc sep : String) (l : List String) :
    String.intercalate.go (buffer ++ acc) sep l = buffer ++ String.intercalate.go acc sep l := by
  induction l generalizing acc with
  | nil => simp [String.intercalate.go]
  | cons a l ih =>
    simp only [String.intercalate.go]
    rw [← ih]
    simp [String.append_assoc]

theorem writeNodes_succ (i : Nat) (buffer : Buffer) (nodes : List Node) :
    writeNodes (i + 1) buffer nodes = String.intercalate.go buffer " / " (nodes.map Node.Name) := by
  induction nodes generalizing i buffer with
  | nil => simp [writeNodes, String.intercalate.go]
  | cons n ns ih =>
    simp only [writeNodes, List.map_cons, String.intercalate.go]
    rw [ih]
    simp [Buffer.WriteString]

theorem writeNodes_zero (buffer : Buffer) (nodes : List Node) :
    writeNodes 0 buffer nodes = buffer ++ String.intercalate " / " (nodes.map Node.Name) := by
  cases nodes with
  | nil => simp [writeNodes, String.intercalate]
  | cons n ns =>
    simp only [writeNodes, List.map_cons, String.intercalate]
    rw [writeNodes_succ]
    simp [Buffer.WriteString, intercalate_go_append]

theorem writeExecution_eq (buffer : Buffer) (e : Execution) :
    writeExecution buffer e = buffer ++ blockSpec e := by
  simp only [writeExecution, blockSpec, writeJobs_eq, writeNodes_zero, Buffer.WriteString,
    String.append_assoc]

theorem foldl_writeExecution (buffer : Buffer) (es : List Execution) :
    es.foldl writeExecution buffer = buffer ++ String.join (es.map blockSpec) := by
  induction es generalizing buffer with
  | nil => simp [String.join]
  | cons e es ih =>
    simp only [List.foldl_cons, List.map_cons, join_cons]
    rw [ih, writeExecution_eq, String.append_assoc]

theorem writeHeader_eq (buffer : Buffer) (project group : String) (n : Nat) :
    writeHeader buffer project group n = buffer ++ headerSpec project group n := by
  by_cases h : group = ""
  · subst h
    simp only [writeHeader, headerSpec, len_bne_zero, Buffer.WriteString, fmtInt,
      String.append_assoc, decide_True, Bool.not_true, if_true, Bool.false_eq_true, if_false]
    rfl
  · simp only [writeHeader, headerSpec, len_bne_zero, h, Buffer.WriteString, fmtInt,
      String.append_assoc, decide_False, Bool.not_false, if_true, if_false]
    rfl

theorem formatBody_eq (project group : String) (es : List Execution) :
    formatBody project group es = digestSpec project group es := by
  simp only [formatBody, digestSpec, foldl_writeExecution, writeHeader_eq, Buffer.WriteString,
    String.append_assoc, String.empty_append]

theorem buildSubject_eq (project group : String) (n : Nat) :
    buildSubject project group n = subjectSpec project group n := by
  by_cases h : group = ""
  · subst h
    rfl
  · simp only [buildSubject, subjectSpec, len_bne_zero, h, fmtInt, decide_False, Bool.not_false,
      if_true, if_false]
    rfl

theorem main_of_reaches {w : World} {configuration : Configuration} {res : Response}
    {response_body : String} {query : QueryExecutions}
    (hr : ReachesReport w configuration res response_body query) :
    main w = report w configuration
      { requests := [buildRequest configuration w.project w.group w.recentfilter],
        parsed := [response_body] } query := by
  obtain ⟨dir, file, h1, h2, h3, h4, h5, h6, h7, h8⟩ := hr
  have hlen : (len w.project == 0) = false := by
    have : len w.project ≠ 0 := fun h0 => h2 ((len_eq_zero_iff _).1 h0)
    simp [this]
  subst h4
  simp only [main, h1, hlen, h3, h5, h6, h7, h8]
  simp

theorem foldl_AddRecipient (recipients : List Recipient) (message : Message) :
    recipients.foldl
        (fun msg recipient => msg.AddRecipient recipient.Email recipient.Name recipient.SendType)
        message
      = { message with
          To := message.To ++ recipients.map (fun r => ⟨r.Email, r.Name, r.SendType⟩) } := by
  induction recipients generalizing message with
  | nil => simp
  | cons r rs ih =>
    simp only [List.foldl_cons, List.map_cons]
    rw [ih]
    simp [Message.AddRecipient]

theorem report_of_ne (w : World) (configuration : Configuration) (o : Outcome)
    (query : QueryExecutions) (hne : query.Executions ≠ []) :
    report w configuration o query =
      match w.messagesSend configuration.MandrillKey
          (buildMessage configuration w.project w.group query.Executions) with
      | some err =>
        logFatal { o with sent := o.sent ++ [(configuration.MandrillKey,
          buildMessage configuration w.project w.group query.Executions)] } err
      | none =>
        { o with
          sent := o.sent ++ [(configuration.MandrillKey,
            buildMessage configuration w.project w.group query.Executions)],
          stdout := o.stdout ++ [fmtInt query.Executions.length ++ " failed jobs found."],
          exit := 0 } := by
  have hpos : query.Executions.length > 0 := List.length_pos.2 hne
  simp only [report, hpos, if_true]

theorem report_sent_of_ne (w : World) (configuration : Configuration) (o : Outcome)
    (query : QueryExecutions) (hne : query.Executions ≠ []) :
    (report w configuration o query).sent = o.sent ++ [(configuration.MandrillKey,
      buildMessage configuration w.project w.group query.Executions)] := by
  rw [report_of_ne w configuration o query hne]
  cases w.messagesSend configuration.MandrillKey
    (buildMessage configuration w.project w.group query.Executions) <;> rfl

theorem report_of_nil (w : World) (configuration : Configuration) (o : Outcome)
    (query : QueryExecutions) (h0 : query.Executions = []) :
    report w configuration o query =
      { o with stdout := o.stdout ++
                 ["No failed jobs found in the period [" ++ w.recentfilter ++ "]."],
               exit := 0 } := by
  simp [report, h0]

theorem main_sent_of_ne {w : World} {configuration : Configuration} {res : Response}
    {response_body : String} {query : QueryExecutions}
    (hr : ReachesReport w configuration res response_body query)
    (hne : query.Executions ≠ []) :
    (main w).sent = [(configuration.MandrillKey,
      buildMessage configuration w.project w.group query.Executions)] := by
  rw [main_of_reaches hr, report_sent_of_ne _ _ _ _ hne]
  rfl

theorem report_requests (w : World) (configuration : Configuration) (o : Outcome)
    (query : QueryExecutions) : (report w configuration o query).requests = o.requests := by
  by_cases hne : query.Executions = []
  · rw [report_of_nil _ _ _ _ hne]
  · rw [report_of_ne _ _ _ _ hne]
    cases w.messagesSend configuration.MandrillKey
      (buildMessage configuration w.project w.group query.Executions) <;> rfl

theorem main_requests (w : World) :
    (main w).requests =
      match w.absDir with
      | .error _ => []
      | .ok dir =>
        if len w.project == 0 then []
        else
          match w.osOpen (dir ++ "/conf.json") with
          | .error _ => []
          | .ok file =>
            match w.newRequestErr "GET"
                (requestURL (w.jsonDecode file).1 w.project w.group w.recentfilter) with
            | some _ => []
            | none => [buildRequest (w.jsonDecode file).1 w.project w.group w.recentfilter] := by
  unfold main
  cases w.absDir with
  | error err => rfl
  | ok dir =>
    by_cases hp : (len w.project == 0) = true
    · simp only [hp, if_true]
      rfl
    · simp only [hp, Bool.false_eq_true, if_false]
      cases w.osOpen (dir ++ "/conf.json") with
      | error err => rfl
      | ok file =>
        simp only []
        cases w.newRequestErr "GET"
            (requestURL (w.jsonDecode file).1 w.project w.group w.recentfilter) with
        | some err => rfl
        | none =>
          simp only []
          cases w.clientDo (buildRequest (w.jsonDecode file).1 w.project w.group w.recentfilter) with
          | error err => rfl
          | ok res =>
            simp only []
            cases res.Body with
            | error err => rfl
            | ok response_body =>
              simp only []
              rw [report_requests]
              rfl

/-! ## Auxiliary lemmas on occurrence counts -/


theorem countOcc_cons_ne (a c : Char) (pat cs : List Char) (h : c ≠ a) :
    countOcc (a :: pat) (c :: cs) = countOcc (a :: pat) cs := by
  have : (a == c) = false := by simpa using fun h' => h h'.symm
  simp [countOcc, List.isPrefixOf, this]

theorem countOcc_cons_cons_ne (a b c d : Char) (pat cs : List Char) (h : c ≠ a ∨ d ≠ b) :
    countOcc (a :: b :: pat) (c :: d :: cs) = countOcc (a :: b :: pat) (d :: cs) := by
  have : ((a == c) && (b == d)) = false := by
    rcases h with h | h
    · have : (a == c) = false := by simpa using fun h' => h h'.symm
      simp [this]
    · have : (b == d) = false := by simpa using fun h' => h h'.symm
      simp [this]
  rw [countOcc]
  simp only [List.isPrefixOf, ← Bool.and_assoc, this, Bool.false_and]
  simp

theorem countOcc_avoids (a b : Char) (pat l s : List Char) (h : avoids a b l = true) :
    countOcc (a :: b :: pat) (l ++ s) = countOcc (a :: b :: pat) s := by
  induction l with
  | nil => rfl
  | cons c l ih =>
    cases l with
    | nil =>
      simp only [avoids, bne_iff_ne, ne_eq] at h
      exact countOcc_cons_ne a c _ _ h
    | cons d l =>
      simp only [avoids, Bool.and_eq_true, Bool.or_eq_true, bne_iff_ne, ne_eq] at h
      rw [List.cons_append, List.cons_append, countOcc_cons_cons_ne a b c d _ _ h.1]
      exact ih h.2

theorem avoids_of_not_mem (a b : Char) (l : List Char) (h : a ∉ l) : avoids a b l = true := by
  induction l with
  | nil => rfl
  | cons c l ih =>
    have hc : c ≠ a := fun e => h (by simp [e])
    have hl : a ∉ l := fun e => h (by simp [e])
    cases l with
    | nil => simp [avoids, hc]
    | cons d l => simp [avoids, hc, ih hl]

theorem countOcc_short (pat s : List Char) (h : s.length < pat.length) : countOcc pat s = 0 := by
  induction s with
  | nil =>
    cases pat with
    | nil => simp at h
    | cons a pat => simp [countOcc]
  | cons c s ih =>
    have hs : s.length < pat.length := by simp at h; omega
    have hp : pat.isPrefixOf (c :: s) = false := by
      cases hpre : pat.isPrefixOf (c :: s) with
      | false => rfl
      | true =>
        have := (List.isPrefixOf_iff_prefix.1 hpre).length_le
        omega
    simp [countOcc, hp, ih hs]

theorem isPrefixOf_append_self (pat s : List Char) : pat.isPrefixOf (pat ++ s) = true := by
  rw [List.isPrefixOf_iff_prefix]
  exact List.prefix_append pat s

theorem digitChar_ne (d : Nat) (h : d < 10) :
    Nat.digitChar d ≠ ' ' ∧ Nat.digitChar d ≠ '[' := by
  interval_cases d <;> decide

theorem toDigitsCore_chars (f n : Nat) (ds : List Char)
    (h : ∀ c ∈ ds, c ≠ ' ' ∧ c ≠ '[') :
    ∀ c ∈ Nat.toDigitsCore 10 f n ds, c ≠ ' ' ∧ c ≠ '[' := by
  induction f generalizing n ds with
  | zero => simpa [Nat.toDigitsCore] using h
  | succ f ih =>
    have hd : ∀ c ∈ Nat.digitChar (n % 10) :: ds, c ≠ ' ' ∧ c ≠ '[' := by
      intro c hc
      rcases List.mem_cons.1 hc with rfl | hc
      · exact digitChar_ne _ (Nat.mod_lt _ (by decide))
      · exact h c hc
    simp only [Nat.toDigitsCore]
    split_ifs
    · exact hd
    · exact ih _ _ hd

theorem repr_chars (n : Nat) : ∀ c ∈ (Nat.repr n).data, c ≠ ' ' ∧ c ≠ '[' := by
  have := toDigitsCore_chars (n + 1) n [] (by simp)
  simpa [Nat.repr, Nat.toDigits, List.asString] using this

theorem countOcc_header (D pd gd : List Char) (hD : ' ' ∉ D) (hp : ' ' ∉ pd) :
    countOcc (" group [".data ++ (gd ++ "]".data))
      (D ++ (" Failed Executions from project [".data ++ (pd ++ ("]".data ++
        (" group [".data ++ (gd ++ ("]".data ++ ".".data))))))) = 1 := by
  show countOcc (' ' :: 'g' :: ("roup [".data ++ (gd ++ [']'])))
      (D ++ (" Failed Executions from project [".data ++ (pd ++ ([']'] ++
        (' ' :: 'g' :: ("roup [".data ++ (gd ++ [']', '.']))))))) = 1
  rw [countOcc_avoids _ _ _ D _ (avoids_of_not_mem _ _ _ hD),
    countOcc_avoids _ _ _ (" Failed Executions from project [".data) _ (by decide),
    countOcc_avoids _ _ _ pd _ (avoids_of_not_mem _ _ _ hp),
    countOcc_avoids _ _ _ [']'] _ (by decide)]
  have hpre : (' ' :: 'g' :: ("roup [".data ++ (gd ++ [']']))).isPrefixOf
      (' ' :: 'g' :: ("roup [".data ++ (gd ++ [']', '.']))) = true := by
    simp
  rw [countOcc, if_pos hpre, countOcc_cons_ne ' ' 'g' _ _ (by decide), countOcc_short]
  simp

theorem eq_of_isPrefix (gd pd rest : List Char) (hg : ' ' ∉ gd) (hp : ' ' ∉ pd)
    (h : gd ++ [']', ' '] <+: pd ++ (']' :: ' ' :: rest)) : gd = pd := by
  induction gd generalizing pd with
  | nil =>
    cases pd with
    | nil => rfl
    | cons c pd =>
      cases pd with
      | nil => simp [List.cons_prefix_cons] at h
      | cons d pd =>
        simp only [List.nil_append, List.cons_append, List.cons_prefix_cons] at h
        exact absurd (List.mem_cons_of_mem c (h.2.1 ▸ List.mem_cons_self d pd)) hp
  | cons a gd ih =>
    cases pd with
    | nil =>
      cases gd with
      | nil => simp [List.cons_prefix_cons] at h
      | cons b gd =>
        simp only [List.nil_append, List.cons_append, List.cons_prefix_cons] at h
        exact absurd (List.mem_cons_of_mem a (h.2.1 ▸ List.mem_cons_self b gd)) hg
    | cons c pd =>
      simp only [List.cons_append, List.cons_prefix_cons] at h
      have hg2 : ' ' ∉ gd := fun e => hg (List.mem_cons_of_mem a e)
      have hp2 : ' ' ∉ pd := fun e => hp (List.mem_cons_of_mem c e)
      rw [h.1, ih pd hg2 hp2 h.2]

theorem countOcc_subject (D pd gd : List Char) (hD : ∀ c ∈ D, c ≠ ' ' ∧ c ≠ '[')
    (hp : ' ' ∉ pd) (hg : ' ' ∉ gd) (hne : gd ≠ pd) :
    countOcc (" [".data ++ (gd ++ "] ".data))
      ("[RunDeck] [".data ++ (pd ++ ("] [".data ++ (gd ++ ("] ".data ++
        (D ++ " failures!".data)))))) = 1 := by
  have hDs : ' ' ∉ D := fun e => (hD _ e).1 rfl
  show countOcc (' ' :: '[' :: (gd ++ [']', ' ']))
      ("[RunDeck]".data ++ (' ' :: '[' :: (pd ++ (']' :: ' ' :: '[' :: (gd ++ (']' :: ' ' ::
        (D ++ " failures!".data))))))) = 1
  rw [countOcc_avoids _ _ _ ("[RunDeck]".data) _ (by decide)]
  -- the position in front of the project segment
  have hearly : (' ' :: '[' :: (gd ++ [']', ' '])).isPrefixOf
      (' ' :: '[' :: (pd ++ (']' :: ' ' :: '[' :: (gd ++ (']' :: ' ' ::
        (D ++ " failures!".data)))))) = false := by
    cases hpre : (' ' :: '[' :: (gd ++ [']', ' '])).isPrefixOf
      (' ' :: '[' :: (pd ++ (']' :: ' ' :: '[' :: (gd ++ (']' :: ' ' ::
        (D ++ " failures!".data)))))) with
    | false => rfl
    | true =>
      rw [List.isPrefixOf_iff_prefix] at hpre
      simp only [List.cons_prefix_cons, true_and] at hpre
      exact absurd (eq_of_isPrefix gd pd _ hg hp hpre) hne
  rw [countOcc, hearly, countOcc_cons_ne ' ' '[' _ _ (by decide),
    countOcc_avoids _ _ _ pd _ (avoids_of_not_mem _ _ _ hp),
    countOcc_cons_ne ' ' ']' _ _ (by decide)]
  -- the position of the group segment
  have hpre : (' ' :: '[' :: (gd ++ [']', ' '])).isPrefixOf
      (' ' :: '[' :: (gd ++ (']' :: ' ' :: (D ++ " failures!".data)))) = true := by
    simp
  rw [countOcc, if_pos hpre, countOcc_cons_ne ' ' '[' _ _ (by decide),
    countOcc_avoids _ _ _ gd _ (avoids_of_not_mem _ _ _ hg),
    countOcc_cons_ne ' ' ']' _ _ (by decide)]
  -- what follows the group segment
  have htail : countOcc (' ' :: '[' :: (gd ++ [']', ' '])) (D ++ " failures!".data) = 0 := by
    rw [countOcc_avoids _ _ _ D _ (avoids_of_not_mem _ _ _ hDs)]
    have := countOcc_avoids ' ' '[' (gd ++ [']', ' ']) (" failures!".data) [] (by decide)
    rw [List.append_nil] at this
    rw [this]
    rfl
  have hlast : countOcc (' ' :: '[' :: (gd ++ [']', ' '])) (' ' :: (D ++ " failures!".data))
      = 0 := by
    cases D with
    | nil =>
      have : countOcc (' ' :: '[' :: (gd ++ [']', ' '])) (' ' :: ([] ++ " failures!".data))
          = countOcc (' ' :: '[' :: (gd ++ [']', ' '])) ([] ++ " failures!".data) :=
        countOcc_cons_cons_ne ' ' '[' ' ' ' ' _ _ (Or.inr (by decide))
      rw [this, htail]
    | cons d D =>
      have hd : d ≠ '[' := (hD d (List.mem_cons_self d D)).2
      have : countOcc (' ' :: '[' :: (gd ++ [']', ' '])) (' ' :: d :: (D ++ " failures!".data))
          = countOcc (' ' :: '[' :: (gd ++ [']', ' '])) (d :: (D ++ " failures!".data)) :=
        countOcc_cons_cons_ne ' ' '[' ' ' d _ _ (Or.inr hd)
      exact this.trans htail
  rw [hlast]
  rfl

theorem occurrences_header (p g : String) (n : Nat) (hp : ' ' ∉ p.data) :
    occurrences (" group [" ++ g ++ "]")
      (Nat.repr n ++ " Failed Executions from project [" ++ p ++ "]"
        ++ " group [" ++ g ++ "]" ++ ".") = 1 := by
  have hD : ' ' ∉ (Nat.repr n).data := fun e => (repr_chars n _ e).1 rfl
  simp only [occurrences, String.data_append, List.append_assoc]
  exact countOcc_header _ _ _ hD hp

theorem occurrences_subject (p g : String) (n : Nat) (hp : ' ' ∉ p.data)
    (hg : ' ' ∉ g.data) (hne : p ≠ g) :
    occurrences (" [" ++ g ++ "] ")
      ("[RunDeck] [" ++ p ++ "] [" ++ g ++ "] " ++ Nat.repr n ++ " failures!") = 1 := by
  have hne2 : g.data ≠ p.data := fun e => hne (String.ext e.symm)
  simp only [occurrences, String.data_append, List.append_assoc]
  exact countOcc_subject _ _ _ (repr_chars n) hp hg hne2

/-! ## The claims -/

/-- C1: when the run reaches the report stage with a non-empty list of
executions, the text of the message built by `main` is the digest of the
project, the group and the executions; for every project, group and list of
executions the digest is exactly the count in decimal,
" Failed Executions from project [", the project, "]", then " group [", the
group, "]" when the group is not empty, then ".\n\n", "Executions:\n" and one
block per execution in input order, a block being the job lines, the locator
line, the Started/User line and the Nodes line with the failed node names
joined with " / ".  In particular the nodes n1, n2, n3 give the line
"\t\tNodes: n1 / n2 / n3" and no nodes give "\t\tNodes: ". -/
theorem digest_body_exact (w : World) (configuration : Configuration) (res : Response)
    (response_body : String) (query : QueryExecutions)
    (hr : ReachesReport w configuration res response_body query)
    (hne : query.Executions ≠ []) :
    (main w).sent.map (fun km => km.2.Text)
        = [formatBody w.project w.group query.Executions]
    ∧ (∀ (project group : String) (executions : List Execution),
        formatBody project group executions
          = Nat.repr executions.length ++ " Failed Executions from project ["
            ++ project ++ "]"
            ++ (if group = "" then "" else " group [" ++ group ++ "]") ++ ".\n\n"
            ++ "Executions:\n"
            ++ String.join (executions.map (fun e =>
                String.join (e.Jobs.map (fun job => "\t" ++ job.Name ++ "\n"))
                  ++ ("\t\t" ++ e.Href ++ "\n")
                  ++ ("\t\tStarted: " ++ e.Started ++ " | User:" ++ e.User ++ "\n")
                  ++ ("\t\tNodes: "
                      ++ String.intercalate " / " (e.FailedNodes.Nodes.map Node.Name)
                      ++ "\n\n"))))
    ∧ (∀ (buffer : Buffer) (e : Execution),
        e.FailedNodes.Nodes = [⟨"n1"⟩, ⟨"n2"⟩, ⟨"n3"⟩] →
        writeExecution buffer e
          = buffer ++ String.join (e.Jobs.map (fun job => "\t" ++ job.Name ++ "\n"))
              ++ ("\t\t" ++ e.Href ++ "\n")
              ++ ("\t\tStarted: " ++ e.Started ++ " | User:" ++ e.User ++ "\n")
              ++ "\t\tNodes: n1 / n2 / n3" ++ "\n\n")
    ∧ (∀ (buffer : Buffer) (e : Execution),
        e.FailedNodes.Nodes = [] →
        writeExecution buffer e
          = buffer ++ String.join (e.Jobs.map (fun job => "\t" ++ job.Name ++ "\n"))
              ++ ("\t\t" ++ e.Href ++ "\n")
              ++ ("\t\tStarted: " ++ e.Started ++ " | User:" ++ e.User ++ "\n")
              ++ "\t\tNodes: " ++ "\n\n") := by
  refine ⟨?_, ?_, ?_, ?_⟩
  · rw [main_sent_of_ne hr hne]
    rfl
  · intro project group executions
    rw [formatBody_eq]
    rfl
  · intro buffer e hn
    rw [writeExecution_eq]
    simp only [blockSpec, hn, String.append_assoc]
    rfl
  · intro buffer e hn
    rw [writeExecution_eq]
    simp only [blockSpec, hn, String.append_assoc]
    rfl

set_option maxRecDepth 100000 in
/-- Witness of C1: project "web", no group, two executions with one job and two
failed nodes each. -/
theorem digest_body_exact_witness :
    (main (sampleWorld "web" "" 200 "<executions count='2'>...</executions>"
        (twoExecutions, none) none)).sent.map (fun km => km.2.Text)
      = ["2 Failed Executions from project [web].\n\nExecutions:\n"
          ++ "\tdeploy\n\t\thttp://rundeck.example:4440/execution/follow/1\n"
          ++ "\t\tStarted: 2015-05-13T16:58:59Z | User:admin\n\t\tNodes: n1 / n2\n\n"
          ++ "\tdeploy\n\t\thttp://rundeck.example:4440/execution/follow/2\n"
          ++ "\t\tStarted: 2015-05-13T16:58:59Z | User:admin\n\t\tNodes: n1 / n2\n\n"] :=
  ((digest_body_exact
    (sampleWorld "web" "" 200 "<executions count='2'>...</executions>" (twoExecutions, none) none)
    sampleConfiguration ⟨200, .ok "<executions count='2'>...</executions>"⟩
    "<executions count='2'>...</executions>" twoExecutions
    ⟨"/opt/rundeck-failed-jobs", "conf.json", rfl, by decide, rfl, rfl, rfl, rfl, rfl, rfl⟩
    (by decide)).1).trans (by decide)

/-- C2: when the run reaches the report stage with n >= 1 executions, the
subject of the message is "[RunDeck] [project] [group] n failures!" when the
group is not empty and "[RunDeck] [project] n failures!" when it is empty, and
the header line of the body carries its group segment in exactly the same
case. -/
theorem subject_exact (w : World) (configuration : Configuration) (res : Response)
    (response_body : String) (query : QueryExecutions)
    (hr : ReachesReport w configuration res response_body query)
    (hne : query.Executions ≠ []) :
    ∃ key message, (main w).sent = [(key, message)] ∧
      (w.group ≠ "" →
        message.Subject = "[RunDeck] [" ++ w.project ++ "] [" ++ w.group ++ "] "
            ++ Nat.repr query.Executions.length ++ " failures!" ∧
        message.Text = Nat.repr query.Executions.length
            ++ " Failed Executions from project [" ++ w.project ++ "]"
            ++ " group [" ++ w.group ++ "]" ++ ".\n\n" ++ "Executions:\n"
            ++ String.join (query.Executions.map (writeExecution ""))) ∧
      (w.group = "" →
        message.Subject = "[RunDeck] [" ++ w.project ++ "] "
            ++ Nat.repr query.Executions.length ++ " failures!" ∧
        message.Text = Nat.repr query.Executions.length
            ++ " Failed Executions from project [" ++ w.project ++ "]"
            ++ ".\n\n" ++ "Executions:\n"
            ++ String.join (query.Executions.map (writeExecution ""))) := by
  have hblock : (writeExecution "" : Execution → String) = blockSpec := by
    funext e
    rw [writeExecution_eq, String.empty_append]
  refine ⟨_, _, main_sent_of_ne hr hne, ?_, ?_⟩
  · intro hg
    refine ⟨?_, ?_⟩
    · show buildSubject _ _ _ = _
      rw [buildSubject_eq]
      simp only [subjectSpec, hg, if_false]
    · show formatBody _ _ _ = _
      rw [formatBody_eq, hblock]
      simp only [digestSpec, headerSpec, hg, if_false, String.append_assoc]
  · intro hg
    refine ⟨?_, ?_⟩
    · show buildSubject _ _ _ = _
      rw [buildSubject_eq]
      simp only [subjectSpec, hg, if_true]
    · show formatBody _ _ _ = _
      rw [formatBody_eq, hblock]
      simp only [digestSpec, headerSpec, hg, if_true, String.append_assoc,
        String.empty_append]

/-- Witness of C2: project "web", group "", two executions give the subject
"[RunDeck] [web] 2 failures!". -/
theorem subject_exact_witness :
    (main (sampleWorld "web" "" 200 "<executions count='2'>...</executions>"
        (twoExecutions, none) none)).sent.map (fun km => km.2.Subject)
      = ["[RunDeck] [web] 2 failures!"] := by
  obtain ⟨key, message, hs, -, h⟩ := subject_exact
    (sampleWorld "web" "" 200 "<executions count='2'>...</executions>" (twoExecutions, none) none)
    sampleConfiguration ⟨200, .ok "<executions count='2'>...</executions>"⟩
    "<executions count='2'>...</executions>" twoExecutions
    ⟨"/opt/rundeck-failed-jobs", "conf.json", rfl, by decide, rfl, rfl, rfl, rfl, rfl, rfl⟩
    (by decide)
  rw [hs]
  simp only [List.map_cons, List.map_nil]
  rw [(h rfl).1]
  rfl

/-- C4: when the run reaches the report stage with zero executions, no message
is built or sent, the only printed output is the line
"No failed jobs found in the period [r]." for the recency window r, and the
exit code is 0. -/
theorem no_failures_notice (w : World) (configuration : Configuration) (res : Response)
    (response_body : String) (query : QueryExecutions)
    (hr : ReachesReport w configuration res response_body query)
    (h0 : query.Executions = []) :
    (main w).sent = [] ∧
      (main w).stdout = ["No failed jobs found in the period [" ++ w.recentfilter ++ "]."] ∧
      (main w).log = [] ∧ (main w).exit = 0 := by
  rw [main_of_reaches hr, report_of_nil _ _ _ _ h0]
  exact ⟨rfl, rfl, rfl, rfl⟩

/-- Witness of C4: the recency window "1h" prints
"No failed jobs found in the period [1h].". -/
theorem no_failures_notice_witness :
    (main (sampleWorld "web" "" 200 "<executions count='0'/>" (⟨[]⟩, none) none)).sent = [] ∧
      (main (sampleWorld "web" "" 200 "<executions count='0'/>" (⟨[]⟩, none) none)).stdout
        = ["No failed jobs found in the period [1h]."] ∧
      (main (sampleWorld "web" "" 200 "<executions count='0'/>" (⟨[]⟩, none) none)).log = [] ∧
      (main (sampleWorld "web" "" 200 "<executions count='0'/>" (⟨[]⟩, none) none)).exit = 0 :=
  no_failures_notice
    (sampleWorld "web" "" 200 "<executions count='0'/>" (⟨[]⟩, none) none)
    sampleConfiguration ⟨200, .ok "<executions count='0'/>"⟩ "<executions count='0'/>" ⟨[]⟩
    ⟨"/opt/rundeck-failed-jobs", "conf.json", rfl, by decide, rfl, rfl, rfl, rfl, rfl, rfl⟩
    rfl

/-- C7: when the run reaches the report stage with executions E1..En, n >= 1,
the digest starts with n in decimal, and what follows the "Executions:" line is
the concatenation of exactly n blocks, the i-th being the rendering of Ei (job
lines, locator line, Started/User line, Nodes line) followed by a blank line,
in input order. -/
theorem digest_blocks (w : World) (configuration : Configuration) (res : Response)
    (response_body : String) (query : QueryExecutions)
    (hr : ReachesReport w configuration res response_body query)
    (hne : query.Executions ≠ []) :
    ∃ key message blocks, (main w).sent = [(key, message)] ∧
      message.Text = Nat.repr query.Executions.length
          ++ " Failed Executions from project [" ++ w.project ++ "]"
          ++ (if w.group = "" then "" else " group [" ++ w.group ++ "]") ++ ".\n\n"
          ++ "Executions:\n" ++ String.join blocks ∧
      blocks.length = query.Executions.length ∧
      ∀ (i : Nat) (hb : i < blocks.length) (he : i < query.Executions.length),
        blocks[i] = writeExecution "" query.Executions[i] ∧
        blocks[i] =
          (String.join (query.Executions[i].Jobs.map (fun job => "\t" ++ job.Name ++ "\n"))
            ++ ("\t\t" ++ query.Executions[i].Href ++ "\n")
            ++ ("\t\tStarted: " ++ query.Executions[i].Started ++ " | User:"
                ++ query.Executions[i].User ++ "\n")
            ++ ("\t\tNodes: " ++ String.intercalate " / "
                (query.Executions[i].FailedNodes.Nodes.map Node.Name) ++ "\n"))
          ++ "\n" := by
  refine ⟨_, _, query.Executions.map blockSpec, main_sent_of_ne hr hne, ?_, by simp, ?_⟩
  · show formatBody _ _ _ = _
    rw [formatBody_eq]
    simp only [digestSpec, headerSpec, String.append_assoc]
  · intro i hb he
    rw [writeExecution_eq, String.empty_append]
    simp only [List.getElem_map, blockSpec, String.append_assoc, true_and]
    rfl

/-- Witness of C7: two executions give two blocks. -/
theorem digest_blocks_witness :
    ∃ key message blocks,
      (main (sampleWorld "web" "teamA" 200 "<executions count='2'>...</executions>"
        (twoExecutions, none) none)).sent = [(key, message)] ∧
      message.Text = "2 Failed Executions from project [web] group [teamA].\n\nExecutions:\n"
          ++ String.join blocks ∧
      blocks.length = 2 := by
  obtain ⟨key, message, blocks, hs, ht, hl, -⟩ := digest_blocks
    (sampleWorld "web" "teamA" 200 "<executions count='2'>...</executions>"
      (twoExecutions, none) none)
    sampleConfiguration ⟨200, .ok "<executions count='2'>...</executions>"⟩
    "<executions count='2'>...</executions>" twoExecutions
    ⟨"/opt/rundeck-failed-jobs", "conf.json", rfl, by decide, rfl, rfl, rfl, rfl, rfl, rfl⟩
    (by decide)
  refine ⟨key, message, blocks, hs, ?_, hl⟩
  rw [ht]
  rfl

/-- C9: when the run reaches the report stage with at least one execution,
exactly one message is handed to the mail provider; its recipient list is the
configured list, entry by entry (email, name, send type) and in the configured
order; its sender is the configured email and name; its text is the formatted
digest. -/
theorem single_message_recipients (w : World) (configuration : Configuration)
    (res : Response) (response_body : String) (query : QueryExecutions)
    (hr : ReachesReport w configuration res response_body query)
    (hne : query.Executions ≠ []) :
    ∃ message, (main w).sent = [(configuration.MandrillKey, message)] ∧
      message.To = configuration.MandrillRecipients.map
        (fun r => (⟨r.Email, r.Name, r.SendType⟩ : To)) ∧
      message.FromEmail = configuration.MandrillFromEmail ∧
      message.FromName = configuration.MandrillFromName ∧
      message.Text = formatBody w.project w.group query.Executions := by
  refine ⟨_, main_sent_of_ne hr hne, ?_, rfl, rfl, rfl⟩
  simp [buildMessage, foldl_AddRecipient]

/-- Witness of C9: the two configured recipients, in order. -/
theorem single_message_recipients_witness :
    ∃ message,
      (main (sampleWorld "web" "" 200 "<executions count='2'>...</executions>"
        (twoExecutions, none) none)).sent = [("mandrill-key", message)] ∧
      message.To = [⟨"ann@example.org", "Ann", "to"⟩, ⟨"bob@example.org", "Bob", "cc"⟩] ∧
      message.FromEmail = "rundeck@example.org" ∧ message.FromName = "RunDeck" := by
  obtain ⟨message, hs, ht, hfe, hfn, -⟩ := single_message_recipients
    (sampleWorld "web" "" 200 "<executions count='2'>...</executions>" (twoExecutions, none) none)
    sampleConfiguration ⟨200, .ok "<executions count='2'>...</executions>"⟩
    "<executions count='2'>...</executions>" twoExecutions
    ⟨"/opt/rundeck-failed-jobs", "conf.json", rfl, by decide, rfl, rfl, rfl, rfl, rfl, rfl⟩
    (by decide)
  exact ⟨message, hs, ht, hfe, hfn⟩

/-- C10: when the run reaches the report stage with n >= 1 executions, the mail
provider is called exactly once; if the call returns an error the run exits
with a non-zero code and prints no summary; if it succeeds the only printed
output is the line "n failed jobs found." and the exit code is 0. -/
theorem send_outcome (w : World) (configuration : Configuration)
    (res : Response) (response_body : String) (query : QueryExecutions)
    (hr : ReachesReport w configuration res response_body query)
    (hne : query.Executions ≠ []) :
    (main w).sent = [(configuration.MandrillKey,
        buildMessage configuration w.project w.group query.Executions)] ∧
      (∀ err, w.messagesSend configuration.MandrillKey
          (buildMessage configuration w.project w.group query.Executions) = some err →
        (main w).exit ≠ 0 ∧ (main w).stdout = [] ∧ (main w).log = [err]) ∧
      (w.messagesSend configuration.MandrillKey
          (buildMessage configuration w.project w.group query.Executions) = none →
        (main w).stdout = [Nat.repr query.Executions.length ++ " failed jobs found."] ∧
        (main w).log = [] ∧ (main w).exit = 0) := by
  refine ⟨main_sent_of_ne hr hne, ?_, ?_⟩
  · intro err he
    rw [main_of_reaches hr, report_of_ne _ _ _ _ hne, he]
    exact ⟨Nat.succ_ne_zero 0, rfl, rfl⟩
  · intro he
    rw [main_of_reaches hr, report_of_ne _ _ _ _ hne, he]
    exact ⟨rfl, rfl, rfl⟩

/-- Witness of C10: two executions and a successful send print
"2 failed jobs found." and exit with code 0. -/
theorem send_outcome_witness :
    (main (sampleWorld "web" "" 200 "<executions count='2'>...</executions>"
        (twoExecutions, none) none)).stdout = ["2 failed jobs found."] ∧
    (main (sampleWorld "web" "" 200 "<executions count='2'>...</executions>"
        (twoExecutions, none) none)).log = [] ∧
    (main (sampleWorld "web" "" 200 "<executions count='2'>...</executions>"
        (twoExecutions, none) none)).exit = 0 :=
  (send_outcome
    (sampleWorld "web" "" 200 "<executions count='2'>...</executions>" (twoExecutions, none) none)
    sampleConfiguration ⟨200, .ok "<executions count='2'>...</executions>"⟩
    "<executions count='2'>...</executions>" twoExecutions
    ⟨"/opt/rundeck-failed-jobs", "conf.json", rfl, by decide, rfl, rfl, rfl, rfl, rfl, rfl⟩
    (by decide)).2.2 rfl

/-- C8: a run issues at most one request; every request it issues is a GET
whose URL is the server URL, "/api/", the API version, "/executions?project=",
the project, "&groupPath=", the group, "&statusFilter=failed&recentFilter=" and
the recency window, all verbatim, with the single header X-Rundeck-Auth-Token
holding the auth token; the request is issued whenever the directory is
resolved, the project is not empty, the configuration file opens and the URL
is accepted; and the URL does not depend on the auth token. -/
theorem request_exact (w : World) :
    (main w).requests.length ≤ 1 ∧
    (∀ req ∈ (main w).requests, ∃ dir file,
      w.absDir = .ok dir ∧ w.osOpen (dir ++ "/conf.json") = .ok file ∧
      req = { Method := "GET"
              URL := (w.jsonDecode file).1.RundeckServerUrl ++ "/api/"
                ++ (w.jsonDecode file).1.RundeckApiVersion ++ "/executions?project="
                ++ w.project ++ "&groupPath=" ++ w.group
                ++ "&statusFilter=failed&recentFilter=" ++ w.recentfilter
              Header := [("X-Rundeck-Auth-Token", (w.jsonDecode file).1.RundeckAuthToken)] }) ∧
    (∀ dir file, w.absDir = .ok dir → w.project ≠ "" →
      w.osOpen (dir ++ "/conf.json") = .ok file →
      w.newRequestErr "GET" ((w.jsonDecode file).1.RundeckServerUrl ++ "/api/"
          ++ (w.jsonDecode file).1.RundeckApiVersion ++ "/executions?project="
          ++ w.project ++ "&groupPath=" ++ w.group
          ++ "&statusFilter=failed&recentFilter=" ++ w.recentfilter) = none →
      (main w).requests =
        [{ Method := "GET"
           URL := (w.jsonDecode file).1.RundeckServerUrl ++ "/api/"
             ++ (w.jsonDecode file).1.RundeckApiVersion ++ "/executions?project="
             ++ w.project ++ "&groupPath=" ++ w.group
             ++ "&statusFilter=failed&recentFilter=" ++ w.recentfilter
           Header := [("X-Rundeck-Auth-Token", (w.jsonDecode file).1.RundeckAuthToken)] }]) ∧
    (∀ token, (main (w.withToken token)).requests.map Request.URL
        = (main w).requests.map Request.URL) := by
  refine ⟨?_, ?_, ?_, ?_⟩
  · rw [main_requests]
    cases w.absDir with
    | error err => simp
    | ok dir =>
      by_cases hp : (len w.project == 0) = true
      · simp [hp]
      · simp only [hp, Bool.false_eq_true, if_false]
        cases w.osOpen (dir ++ "/conf.json") with
        | error err => simp
        | ok file =>
          simp only []
          cases w.newRequestErr "GET"
            (requestURL (w.jsonDecode file).1 w.project w.group w.recentfilter) <;> simp
  · intro req hreq
    rw [main_requests] at hreq
    cases h1 : w.absDir with
    | error err => simp [h1] at hreq
    | ok dir =>
      by_cases hp : (len w.project == 0) = true
      · simp [h1, hp] at hreq
      · simp only [h1, hp, Bool.false_eq_true, if_false] at hreq
        cases h3 : w.osOpen (dir ++ "/conf.json") with
        | error err => simp [h3] at hreq
        | ok file =>
          simp only [h3] at hreq
          cases h4 : w.newRequestErr "GET"
            (requestURL (w.jsonDecode file).1 w.project w.group w.recentfilter) with
          | some err => simp [h4] at hreq
          | none =>
            simp only [h4, List.mem_singleton] at hreq
            exact ⟨dir, file, rfl, h3, hreq⟩
  · intro dir file h1 h2 h3 h4
    have hlen : (len w.project == 0) = false := by
      have : len w.project ≠ 0 := fun h0 => h2 ((len_eq_zero_iff _).1 h0)
      simp [this]
    have h4r : w.newRequestErr "GET"
        (requestURL (w.jsonDecode file).1 w.project w.group w.recentfilter) = none := h4
    rw [main_requests]
    simp only [h1, hlen, Bool.false_eq_true, if_false, h3, h4r]
    rfl
  · intro token
    rw [main_requests, main_requests]
    show (match w.absDir with
      | .error _ => []
      | .ok dir =>
        if len w.project == 0 then []
        else
          match w.osOpen (dir ++ "/conf.json") with
          | .error _ => []
          | .ok file =>
            match w.newRequestErr "GET"
                (requestURL (w.jsonDecode file).1 w.project w.group w.recentfilter) with
            | some _ => []
            | none => [buildRequest ((w.withToken token).jsonDecode file).1
                        w.project w.group w.recentfilter]).map Request.URL = _
    cases w.absDir with
    | error err => rfl
    | ok dir =>
      by_cases hp : (len w.project == 0) = true
      · simp [hp]
      · simp only [hp, Bool.false_eq_true, if_false]
        cases w.osOpen (dir ++ "/conf.json") with
        | error err => rfl
        | ok file =>
          simp only []
          cases w.newRequestErr "GET"
            (requestURL (w.jsonDecode file).1 w.project w.group w.recentfilter) with
          | some err => rfl
          | none => rfl

/-- Witness of C8: project "web", no group, window "1h". -/
theorem request_exact_witness :
    (main (sampleWorld "web" "" 200 "<executions count='0'/>" (⟨[]⟩, none) none)).requests =
      [{ Method := "GET"
         URL := "http://rundeck.example:4440/api/12/executions?project=web&groupPath="
           ++ "&statusFilter=failed&recentFilter=1h"
         Header := [("X-Rundeck-Auth-Token", "s3cr3t")] }] :=
  (request_exact (sampleWorld "web" "" 200 "<executions count='0'/>" (⟨[]⟩, none) none)).2.2.1
    "/opt/rundeck-failed-jobs" "conf.json" rfl (by decide) rfl rfl

/-- C3, evaluated on the code: line 116 discards the error of the decoder.  A
truncated document that leaves no execution ends like a valid empty document
(the no-failures notice, no diagnostic, exit code 0); a document broken after
its first execution has a message sent; and no run depends on the error the
decoder returns. -/
theorem decode_error_ignored :
    (main truncatedWorld).exit = 0 ∧ (main truncatedWorld).log = [] ∧
    (main truncatedWorld).sent = [] ∧
    (main truncatedWorld).stdout = ["No failed jobs found in the period [1h]."] ∧
    (main truncatedWorld).stdout = (main emptyWorld).stdout ∧
    (main truncatedWorld).log = (main emptyWorld).log ∧
    (main truncatedWorld).exit = (main emptyWorld).exit ∧
    (main brokenTailWorld).sent.length = 1 ∧ (main brokenTailWorld).exit = 0 ∧
    (main brokenTailWorld).stdout = ["1 failed jobs found."] ∧
    ∀ (w : World) (err : Option String), main (w.withDecodeError err) = main w := by
  refine ⟨by decide, by decide, by decide, by decide, by decide, by decide, by decide,
    by decide, by decide, by decide, ?_⟩
  intro w err
  rfl

/-- Counterexample to C5: the server answers 500 with a document of two
executions and the run parses it, sends the message, prints the summary and
exits with code 0; the server answers 403 with its error document and the run
parses the body, prints the no-failures notice and exits with code 0. -/
theorem non2xx_not_fatal :
    (∀ req, (serverErrorWorld.clientDo req).toOption.map Response.StatusCode = some 500) ∧
    (main serverErrorWorld).exit = 0 ∧
    (main serverErrorWorld).parsed = ["<executions count='2'>...</executions>"] ∧
    (main serverErrorWorld).sent.length = 1 ∧
    (main serverErrorWorld).stdout = ["2 failed jobs found."] ∧
    (∀ req, (forbiddenWorld.clientDo req).toOption.map Response.StatusCode = some 403) ∧
    (main forbiddenWorld).exit = 0 ∧
    (main forbiddenWorld).parsed =
      ["<result error='true' apiversion='12'><error><message>Unauthorized</message></error></result>"] ∧
    (main forbiddenWorld).stdout = ["No failed jobs found in the period [1h]."] := by
  refine ⟨fun req => rfl, by decide, by decide, by decide, by decide,
    fun req => rfl, by decide, by decide, by decide⟩

/-- C5 as amended: the status code of the answer is never inspected, a run
ends exactly as it does when the same answer carries any other status; a run
whose own request fails, or whose answer has a body that cannot be read, exits
with a non-zero code, parses nothing, sends no message and prints nothing,
whatever the status; when the run gets as far as issuing its request, the
outcome in both cases is that request, the error as the only diagnostic and
exit code 1. -/
theorem status_not_inspected (w : World) :
    (∀ status, main (w.withStatus status) = main w) ∧
    ((∀ dir file, w.absDir = .ok dir → w.osOpen (dir ++ "/conf.json") = .ok file →
        ∀ res, w.clientDo
            (buildRequest (w.jsonDecode file).1 w.project w.group w.recentfilter) = .ok res →
          ∃ err, res.Body = .error err) →
      (main w).exit ≠ 0 ∧ (main w).parsed = [] ∧ (main w).sent = [] ∧
        (main w).stdout = []) ∧
    (∀ dir file, w.absDir = .ok dir → w.project ≠ "" →
      w.osOpen (dir ++ "/conf.json") = .ok file →
      w.newRequestErr "GET"
        (requestURL (w.jsonDecode file).1 w.project w.group w.recentfilter) = none →
      (∀ err, w.clientDo
          (buildRequest (w.jsonDecode file).1 w.project w.group w.recentfilter) = .error err →
        main w =
          { requests := [buildRequest (w.jsonDecode file).1 w.project w.group w.recentfilter],
            log := [err], exit := 1 }) ∧
      (∀ res err, w.clientDo
          (buildRequest (w.jsonDecode file).1 w.project w.group w.recentfilter) = .ok res →
        res.Body = .error err →
        main w =
          { requests := [buildRequest (w.jsonDecode file).1 w.project w.group w.recentfilter],
            log := [err], exit := 1 })) := by
  refine ⟨?_, ?_, ?_⟩
  · intro status
    unfold main
    show (match w.absDir with
      | .error err => _
      | .ok dir => _) = _
    cases w.absDir with
    | error err => rfl
    | ok dir =>
      simp only []
      by_cases hp : (len w.project == 0) = true
      · simp only [World.withStatus, hp, if_true]
      · simp only [World.withStatus, hp, Bool.false_eq_true, if_false]
        cases w.osOpen (dir ++ "/conf.json") with
        | error err => rfl
        | ok file =>
          simp only []
          cases w.newRequestErr "GET"
            (requestURL (w.jsonDecode file).1 w.project w.group w.recentfilter) with
          | some err => rfl
          | none =>
            simp only []
            cases w.clientDo
              (buildRequest (w.jsonDecode file).1 w.project w.group w.recentfilter) with
            | error err => rfl
            | ok res =>
              simp only []
              cases res.Body with
              | error err => rfl
              | ok response_body => rfl
  · intro h
    unfold main
    cases h1 : w.absDir with
    | error err => exact ⟨Nat.succ_ne_zero 0, rfl, rfl, rfl⟩
    | ok dir =>
      simp only []
      by_cases hp : (len w.project == 0) = true
      · simp only [hp, if_true]
        exact ⟨Nat.succ_ne_zero 0, rfl, rfl, rfl⟩
      · simp only [hp, Bool.false_eq_true, if_false]
        cases h3 : w.osOpen (dir ++ "/conf.json") with
        | error err => exact ⟨Nat.succ_ne_zero 0, rfl, rfl, rfl⟩
        | ok file =>
          simp only []
          cases w.newRequestErr "GET"
            (requestURL (w.jsonDecode file).1 w.project w.group w.recentfilter) with
          | some err => exact ⟨Nat.succ_ne_zero 1, rfl, rfl, rfl⟩
          | none =>
            simp only []
            cases hd : w.clientDo
              (buildRequest (w.jsonDecode file).1 w.project w.group w.recentfilter) with
            | error err => exact ⟨Nat.succ_ne_zero 0, rfl, rfl, rfl⟩
            | ok res =>
              obtain ⟨err, hb⟩ := h dir file h1 h3 res hd
              simp only [hb]
              exact ⟨Nat.succ_ne_zero 0, rfl, rfl, rfl⟩
  · intro dir file h1 h2 h3 h4
    have hlen : (len w.project == 0) = false := by
      have : len w.project ≠ 0 := fun h0 => h2 ((len_eq_zero_iff _).1 h0)
      simp [this]
    refine ⟨?_, ?_⟩
    · intro err hd
      simp only [main, h1, hlen, Bool.false_eq_true, if_false, h3, h4, hd]
      rfl
    · intro res err hd hb
      simp only [main, h1, hlen, Bool.false_eq_true, if_false, h3, h4, hd, hb]
      rfl

/-- Witness of C5 as amended: the answer with two executions ends the same way
under status 500 as under status 200; a refused connection is fatal, also
when only the request of this run is refused; an answer with status 502 whose
body cannot be read is fatal. -/
theorem status_not_inspected_witness :
    main ((sampleWorld "web" "" 200 "<executions count='2'>...</executions>"
        (twoExecutions, none) none).withStatus 500)
      = main (sampleWorld "web" "" 200 "<executions count='2'>...</executions>"
          (twoExecutions, none) none) ∧
    ((main unreachableWorld).exit ≠ 0 ∧ (main unreachableWorld).parsed = [] ∧
      (main unreachableWorld).sent = [] ∧ (main unreachableWorld).stdout = []) ∧
    main unreachableWorld =
      { requests := [buildRequest sampleConfiguration "web" "" "1h"],
        log := ["dial tcp 192.0.2.1:4440: connect: connection refused"], exit := 1 } ∧
    ((main badGatewayWorld).exit ≠ 0 ∧ (main badGatewayWorld).parsed = [] ∧
      (main badGatewayWorld).sent = [] ∧ (main badGatewayWorld).stdout = []) ∧
    main badGatewayWorld =
      { requests := [buildRequest sampleConfiguration "web" "" "1h"],
        log := ["unexpected EOF"], exit := 1 } ∧
    ((main refusingWorld).exit ≠ 0 ∧ (main refusingWorld).parsed = [] ∧
      (main refusingWorld).sent = [] ∧ (main refusingWorld).stdout = []) :=
  ⟨(status_not_inspected (sampleWorld "web" "" 200 "<executions count='2'>...</executions>"
      (twoExecutions, none) none)).1 500,
   (status_not_inspected unreachableWorld).2.1 (fun _ _ _ _ _ h => nomatch h),
   ((status_not_inspected unreachableWorld).2.2 "/opt/rundeck-failed-jobs" "conf.json"
      rfl (by decide) rfl rfl).1 _ rfl,
   (status_not_inspected badGatewayWorld).2.1
      (fun _ _ _ _ res h => ⟨"unexpected EOF", by cases h; rfl⟩),
   ((status_not_inspected badGatewayWorld).2.2 "/opt/rundeck-failed-jobs" "conf.json"
      rfl (by decide) rfl rfl).2 ⟨502, .error "unexpected EOF"⟩ _ rfl rfl,
   (status_not_inspected refusingWorld).2.1
      (fun dir file h1 h3 res h => by
        cases h1
        cases h3
        exact nomatch h)⟩

set_option maxRecDepth 100000 in
/-- Counterexample to C6: with project "a] [teamA] [b" and group "teamA" the
subject holds " [teamA] " twice, and with project "x] group [teamA" and group
"teamA" the header line holds " group [teamA]" twice. -/
theorem group_segment_twice :
    (main (sampleWorld "a] [teamA] [b" "teamA" 200 "<executions count='2'>...</executions>"
        (twoExecutions, none) none)).sent.map (fun km => km.2.Subject)
      = ["[RunDeck] [a] [teamA] [b] [teamA] 2 failures!"] ∧
    (main (sampleWorld "a] [teamA] [b" "teamA" 200 "<executions count='2'>...</executions>"
        (twoExecutions, none) none)).sent.map (fun km => occurrences " [teamA] " km.2.Subject)
      = [2] ∧
    (main (sampleWorld "x] group [teamA" "teamA" 200 "<executions count='2'>...</executions>"
        (twoExecutions, none) none)).sent.map (fun km => firstLine km.2.Text)
      = ["2 Failed Executions from project [x] group [teamA] group [teamA]."] ∧
    (main (sampleWorld "x] group [teamA" "teamA" 200 "<executions count='2'>...</executions>"
        (twoExecutions, none) none)).sent.map
          (fun km => occurrences " group [teamA]" (firstLine km.2.Text))
      = [2] := by
  refine ⟨by decide, by decide, by decide, by decide⟩

/-- C6 as amended: when the run reaches the report stage with n >= 1
executions and the group is empty, the header line is the count,
" Failed Executions from project [", the project and "]." and the subject is
"[RunDeck] [", the project, "] ", the count and " failures!", neither with a
group segment; when the group g is not empty, the header line has " group [g]"
written once, right after the project segment, and the subject has "[g] "
written once, right after "[RunDeck] [project] "; the text " group [g]" then
occurs exactly once in the header line when the project holds no space, and
the text " [g] " occurs exactly once in the subject when neither the project
nor the group holds a space and they differ. -/
theorem group_segment (w : World) (configuration : Configuration) (res : Response)
    (response_body : String) (query : QueryExecutions)
    (hr : ReachesReport w configuration res response_body query)
    (hne : query.Executions ≠ []) :
    ∃ key message, (main w).sent = [(key, message)] ∧
      (w.group = "" →
        message.Text =
          (Nat.repr query.Executions.length ++ " Failed Executions from project ["
            ++ w.project ++ "].")
          ++ "\n\n" ++ "Executions:\n"
          ++ String.join (query.Executions.map (writeExecution "")) ∧
        message.Subject = "[RunDeck] [" ++ w.project ++ "] "
          ++ Nat.repr query.Executions.length ++ " failures!") ∧
      (w.group ≠ "" →
        message.Text =
          (Nat.repr query.Executions.length ++ " Failed Executions from project ["
            ++ w.project ++ "]" ++ " group [" ++ w.group ++ "]" ++ ".")
          ++ "\n\n" ++ "Executions:\n"
          ++ String.join (query.Executions.map (writeExecution "")) ∧
        message.Subject = "[RunDeck] [" ++ w.project ++ "] [" ++ w.group ++ "] "
          ++ Nat.repr query.Executions.length ++ " failures!" ∧
        (' ' ∉ w.project.data →
          occurrences (" group [" ++ w.group ++ "]")
            (Nat.repr query.Executions.length ++ " Failed Executions from project ["
              ++ w.project ++ "]" ++ " group [" ++ w.group ++ "]" ++ ".") = 1) ∧
        (' ' ∉ w.project.data → ' ' ∉ w.group.data → w.project ≠ w.group →
          occurrences (" [" ++ w.group ++ "] ") message.Subject = 1)) := by
  have hblock : (writeExecution "" : Execution → String) = blockSpec := by
    funext e
    rw [writeExecution_eq, String.empty_append]
  have hdot : ∀ s : String, "." ++ ("\n\n" ++ s) = ".\n\n" ++ s := by
    intro s
    rw [← String.append_assoc]
    rfl
  have hdot2 : ∀ s : String, "]." ++ ("\n\n" ++ s) = "]" ++ (".\n\n" ++ s) := by
    intro s
    rw [← String.append_assoc, ← String.append_assoc]
    rfl
  refine ⟨_, _, main_sent_of_ne hr hne, ?_, ?_⟩
  · intro hg
    refine ⟨?_, ?_⟩
    · show formatBody _ _ _ = _
      rw [formatBody_eq, hblock]
      simp only [digestSpec, headerSpec, hg, if_true, String.append_assoc,
        String.empty_append, hdot2]
    · show buildSubject _ _ _ = _
      rw [buildSubject_eq]
      simp only [subjectSpec, hg, if_true]
  · intro hg
    have hsubj : buildSubject w.project w.group query.Executions.length
        = "[RunDeck] [" ++ w.project ++ "] [" ++ w.group ++ "] "
          ++ Nat.repr query.Executions.length ++ " failures!" := by
      rw [buildSubject_eq]
      simp only [subjectSpec, hg, if_false]
    refine ⟨?_, hsubj, ?_, ?_⟩
    · show formatBody _ _ _ = _
      rw [formatBody_eq, hblock]
      simp only [digestSpec, headerSpec, hg, if_false, String.append_assoc, hdot]
    · intro hp
      exact occurrences_header _ _ _ hp
    · intro hp hgs hpg
      show occurrences _ (buildSubject _ _ _) = 1
      rw [hsubj]
      exact occurrences_subject _ _ _ hp hgs hpg

/-- Witness of C6 as amended: project "web" and group "teamA". -/
theorem group_segment_witness :
    ∃ key message,
      (main (sampleWorld "web" "teamA" 200 "<executions count='2'>...</executions>"
        (twoExecutions, none) none)).sent = [(key, message)] ∧
      message.Subject = "[RunDeck] [web] [teamA] 2 failures!" ∧
      occurrences " group [teamA]"
        "2 Failed Executions from project [web] group [teamA]." = 1 ∧
      occurrences " [teamA] " message.Subject = 1 := by
  obtain ⟨key, message, hs, -, h⟩ := group_segment
    (sampleWorld "web" "teamA" 200 "<executions count='2'>...</executions>"
      (twoExecutions, none) none)
    sampleConfiguration ⟨200, .ok "<executions count='2'>...</executions>"⟩
    "<executions count='2'>...</executions>" twoExecutions
    ⟨"/opt/rundeck-failed-jobs", "conf.json", rfl, by decide, rfl, rfl, rfl, rfl, rfl, rfl⟩
    (by decide)
  obtain ⟨-, hsub, hh, hsu⟩ := h (by decide)
  exact ⟨key, message, hs, hsub, hh (by decide), hsu (by decide) (by decide) (by decide)⟩

end RundeckFailedJobs
